import Mathlib

/-!
Shallow embedding of the geospatial/analytics core of the OAU bike app
(`app/core/geofencing.py`, `app/core/analytics.py`,
`app/utils/location_utils.py`) and theorems checking the specification's
claims about it.

Modelling conventions: Python floats are real numbers (`ℝ`), Python ints are
`ℤ`/`ℕ`, `round(x, n)` (round half to even) is `pyRoundTo n`, `int(x)` is
`pyInt`, dictionaries that the code builds and reads by key are association
lists, and `float('inf')` as a loop's initial minimum is `Option.none`.
-/

namespace OAUBike

open Real

/-- Python's `round(x)` to an integer value: round half to even. -/
def pyRound {α : Type} [LinearOrderedField α] [FloorRing α] (x : α) : α :=
  if x - ⌊x⌋ = 1 / 2 then (if Even ⌊x⌋ then (⌊x⌋ : α) else (⌊x⌋ : α) + 1)
  else ((round x : ℤ) : α)

/-- Python's `round(x, n)` for `n` decimal digits. -/
def pyRoundTo {α : Type} [LinearOrderedField α] [FloorRing α] (n : ℕ) (x : α) : α :=
  pyRound (x * 10 ^ n) / 10 ^ n

/-- Python's `int(x)` on a float: truncation toward zero. -/
def pyInt {α : Type} [LinearOrderedField α] [FloorRing α] (x : α) : ℤ :=
  if 0 ≤ x then ⌊x⌋ else -⌊-x⌋

/-- `math.radians`. -/
noncomputable def radians (x : ℝ) : ℝ := x * π / 180

/-- `app/config.py`, `Settings.OAU_CENTER_LAT`. -/
def OAU_CENTER_LAT : ℝ := 7.5227

/-- `app/config.py`, `Settings.OAU_CENTER_LNG`. -/
def OAU_CENTER_LNG : ℝ := 4.5198

/-- `app/config.py`, `Settings.OAU_RADIUS_KM`. -/
def OAU_RADIUS_KM : ℝ := 5.0

/-- `calculate_distance` (geofencing.py): haversine distance in kilometers,
Earth radius 6371 km. -/
noncomputable def calculate_distance (lat1 lon1 lat2 lon2 : ℝ) : ℝ :=
  let R : ℝ := 6371
  let lat1r := radians lat1
  let lon1r := radians lon1
  let lat2r := radians lat2
  let lon2r := radians lon2
  let dlat := lat2r - lat1r
  let dlon := lon2r - lon1r
  let a := Real.sin (dlat / 2) ^ 2 +
    Real.cos lat1r * Real.cos lat2r * Real.sin (dlon / 2) ^ 2
  let c := 2 * Real.arcsin (Real.sqrt a)
  R * c

/-- One iteration of `point_in_polygon`'s ray-casting loop (geofencing.py),
for the edge from `(p1x, p1y)` to `(p2x, p2y)`.  In the source `xinters` is
assigned only under `p1y != p2y`, but the branch that reads it is reachable
only when `min p1y p2y < y ≤ max p1y p2y`, which forces `p1y ≠ p2y`; so the
guarded assignment is folded into the condition (Lean's division by zero
makes the never-read case harmless). -/
noncomputable def edgeStep (x y p1x p1y p2x p2y : ℝ) (inside : Bool) : Bool :=
  if y > min p1y p2y ∧ y ≤ max p1y p2y ∧ x ≤ max p1x p2x ∧
      (p1x = p2x ∨ x ≤ (y - p1y) * (p2x - p1x) / (p2y - p1y) + p1x) then
    !inside
  else inside

/-- The ray-casting loop of `point_in_polygon`: fold `edgeStep` over the
consecutive vertex pairs. -/
noncomputable def rayCast (x y : ℝ) : ℝ × ℝ → List (ℝ × ℝ) → Bool → Bool
  | _, [], inside => inside
  | p1, p2 :: rest, inside =>
    rayCast x y p2 rest (edgeStep x y p1.1 p1.2 p2.1 p2.2 inside)

/-- `point_in_polygon` (geofencing.py).  The test point is unpacked as
`x, y = lon, lat` while each polygon vertex `(a, b)` is unpacked as
`p1x, p1y = a, b`; the edges run from `polygon[0]` through `polygon[n-1]` and
wrap back to `polygon[0]`.  (The Python raises IndexError on an empty
polygon; it is only ever called with the fixed 7-vertex campus polygon.) -/
noncomputable def point_in_polygon (lat lon : ℝ) (polygon : List (ℝ × ℝ)) : Bool :=
  match polygon with
  | [] => false
  | p0 :: rest => rayCast lon lat p0 (rest ++ [p0]) false

/-- The fixed OAU campus boundary polygon of `is_within_oau_polygon`
(geofencing.py); each entry is written `(lat, lng)` in the source. -/
noncomputable def oau_polygon : List (ℝ × ℝ) :=
  [(7.5150, 4.5100), (7.5300, 4.5050), (7.5380, 4.5200), (7.5350, 4.5300),
   (7.5250, 4.5350), (7.5100, 4.5250), (7.5150, 4.5100)]

/-- `is_within_oau_polygon` (geofencing.py). -/
noncomputable def is_within_oau_polygon (latitude longitude : ℝ) : Bool :=
  point_in_polygon latitude longitude oau_polygon

/-- `is_within_oau_campus` (geofencing.py): radius pre-filter, then polygon
containment. -/
noncomputable def is_within_oau_campus (latitude longitude : ℝ) : Bool :=
  if calculate_distance latitude longitude OAU_CENTER_LAT OAU_CENTER_LNG >
      OAU_RADIUS_KM then
    false
  else is_within_oau_polygon latitude longitude

/-- `determine_campus_zone` (geofencing.py): fixed rectangles checked in a
fixed order, with a catch-all. -/
noncomputable def determine_campus_zone (latitude longitude : ℝ) : String :=
  if 7.5200 ≤ latitude ∧ latitude ≤ 7.5260 ∧
      4.5180 ≤ longitude ∧ longitude ≤ 4.5230 then "Academic Zone"
  else if 7.5260 ≤ latitude ∧ latitude ≤ 7.5320 ∧
      4.5120 ≤ longitude ∧ longitude ≤ 4.5180 then "Student Residential Zone"
  else if 7.5320 ≤ latitude ∧ latitude ≤ 7.5380 ∧
      4.5100 ≤ longitude ∧ longitude ≤ 4.5150 then "Medical Zone"
  else if 7.5180 ≤ latitude ∧ latitude ≤ 7.5220 ∧
      4.5220 ≤ longitude ∧ longitude ≤ 4.5280 then "Sports & Recreation Zone"
  else "General Campus Area"

/-! ## Landmark catalog and nearest-landmark resolution -/

/-- One entry of `OAU_LANDMARKS` (geofencing.py).  Coordinates are the
source's decimal literals, kept as rationals so that equality of catalog
coordinates is decidable; they are cast to `ℝ` wherever the code feeds them
to `calculate_distance`. -/
structure Landmark where
  id : String
  lat : ℚ
  lng : ℚ
  name : String
  type : String
  description : String
deriving DecidableEq

/-- `OAU_LANDMARKS` (geofencing.py), in the source's insertion order (a
Python dict iterates in insertion order). -/
def OAU_LANDMARKS : List Landmark :=
  [⟨"main_gate", 7.5227, 4.5198, "Main Gate", "entrance", "Primary campus entrance"⟩,
   ⟨"sub", 7.5245, 4.5203, "Student Union Building (SUB)", "building",
     "Student activities center"⟩,
   ⟨"oduduwa_hall", 7.5234, 4.5189, "Oduduwa Hall", "hall", "Main auditorium"⟩,
   ⟨"futa", 7.5256, 4.5210, "Faculty of Technology", "faculty",
     "Engineering and Technology faculty"⟩,
   ⟨"science_complex", 7.5240, 4.5220, "Science Complex", "faculty",
     "Pure and Applied Sciences"⟩,
   ⟨"arts_theatre", 7.5230, 4.5180, "Arts Theatre", "theatre", "Creative Arts faculty"⟩,
   ⟨"mozambique_hostel", 7.5280, 4.5167, "Mozambique Hostel", "hostel",
     "Student accommodation"⟩,
   ⟨"angola_hostel", 7.5289, 4.5134, "Angola Hostel", "hostel", "Student accommodation"⟩,
   ⟨"madagascar_hostel", 7.5295, 4.5145, "Madagascar Hostel", "hostel",
     "Student accommodation"⟩,
   ⟨"awolowo_hall", 7.5270, 4.5150, "Awolowo Hall", "hostel", "Premier student hall"⟩,
   ⟨"sports_complex", 7.5198, 4.5234, "Sports Complex", "sports",
     "Sports and recreational facilities"⟩,
   ⟨"teaching_hospital", 7.5345, 4.5123, "OAU Teaching Hospital (OAUTHC)", "hospital",
     "Medical center"⟩,
   ⟨"central_library", 7.5250, 4.5200, "Hezekiah Oluwasanmi Library", "library",
     "Main university library"⟩,
   ⟨"back_gate", 7.5320, 4.5180, "Back Gate", "entrance", "Secondary campus entrance"⟩,
   ⟨"coop_gate", 7.5200, 4.5280, "Cooperative Gate", "entrance",
     "Residential area entrance"⟩,
   ⟨"buka_junction", 7.5260, 4.5190, "Buka Junction", "food", "Popular food court area"⟩,
   ⟨"atm_point", 7.5235, 4.5195, "Banking Complex", "service",
     "ATMs and banking services"⟩,
   ⟨"chapel_of_wisdom", 7.5225, 4.5175, "Chapel of Wisdom", "religious",
     "University chapel"⟩]

/-- The `nearest_info` record built inside `get_nearest_landmark`
(geofencing.py); `distance` is in meters, already rounded with `round(d, 0)`. -/
structure NearestInfo where
  name : String
  type : String
  distance : ℝ
  description : String

/-- The scanning loop of `get_nearest_landmark` (geofencing.py).  The state
is `(min_distance, nearest_landmark, nearest_info)`; the initial
`min_distance = float('inf')` is modelled as `none` (an `inf` compares
greater than every distance, so the first branch of the match is the
`none` case). -/
noncomputable def nearestScan (latitude longitude max_distance : ℝ) :
    List Landmark → Option ℝ × String × Option NearestInfo →
      Option ℝ × String × Option NearestInfo
  | [], st => st
  | l :: rest, (min_distance, nearest_landmark, nearest_info) =>
    let distance := calculate_distance latitude longitude (l.lat : ℝ) (l.lng : ℝ)
    match min_distance with
    | none =>
      if distance ≤ max_distance then
        nearestScan latitude longitude max_distance rest
          (some distance, l.name,
            some ⟨l.name, l.type, pyRoundTo 0 (distance * 1000), l.description⟩)
      else
        nearestScan latitude longitude max_distance rest
          (min_distance, nearest_landmark, nearest_info)
    | some m =>
      if distance < m ∧ distance ≤ max_distance then
        nearestScan latitude longitude max_distance rest
          (some distance, l.name,
            some ⟨l.name, l.type, pyRoundTo 0 (distance * 1000), l.description⟩)
      else
        nearestScan latitude longitude max_distance rest
          (min_distance, nearest_landmark, nearest_info)

/-- `get_nearest_landmark` (geofencing.py); `max_distance` defaults to 1 km
at the call sites that omit it. -/
noncomputable def get_nearest_landmark (latitude longitude max_distance : ℝ) : String :=
  match nearestScan latitude longitude max_distance OAU_LANDMARKS
    (none, "Unknown Location", none) with
  | (_, nearest_landmark, some info) =>
    if info.distance < 50 then "At " ++ nearest_landmark
    else if info.distance < 200 then "Near " ++ nearest_landmark
    else "Close to " ++ nearest_landmark ++ " (" ++ toString (pyInt info.distance) ++ "m)"
  | (_, _, none) => "On Campus (Location Unknown)"

/-! ## Coordinate validation -/

/-- The result dictionary of `validate_coordinates` (geofencing.py). -/
structure ValidationResult where
  valid : Bool
  within_campus : Bool
  nearest_landmark : Option String
  distance_from_center : Option ℝ
  zone : Option String
  errors : List String

/-- `validate_coordinates` (geofencing.py): the range errors are collected
latitude first, then longitude; a nonempty error list returns early with the
classification fields untouched (`False`/`None`). -/
noncomputable def validate_coordinates (latitude longitude : ℝ) : ValidationResult :=
  let latErrors : List String :=
    if ¬(-90 ≤ latitude ∧ latitude ≤ 90) then
      ["Invalid latitude: must be between -90 and 90"]
    else []
  let lonErrors : List String :=
    if ¬(-180 ≤ longitude ∧ longitude ≤ 180) then
      ["Invalid longitude: must be between -180 and 180"]
    else []
  let errors := latErrors ++ lonErrors
  if errors ≠ [] then ⟨false, false, none, none, none, errors⟩
  else
    let within_campus := is_within_oau_campus latitude longitude
    let distance_from_center :=
      calculate_distance latitude longitude OAU_CENTER_LAT OAU_CENTER_LNG
    if within_campus then
      ⟨true, within_campus, some (get_nearest_landmark latitude longitude 1),
        some distance_from_center, some (determine_campus_zone latitude longitude), []⟩
    else
      ⟨false, within_campus, none, some distance_from_center, none,
        ["Location is outside OAU campus boundaries"]⟩

/-! ## Greedy location clustering -/

/-- `LocationCluster` (location_utils.py); `user_count` always equals
`locations.length` in the source (the two are updated together), so only the
member list is kept.  A member is its `(latitude, longitude)` pair. -/
structure LocationCluster where
  center_lat : ℝ
  center_lng : ℝ
  radius : ℝ
  locations : List (ℝ × ℝ)

/-- `LocationCluster.add_location` (location_utils.py): absorb the point if
its distance to the center, in meters, is within the radius; report whether
it was absorbed. -/
noncomputable def add_location (cluster : LocationCluster) (p : ℝ × ℝ) :
    LocationCluster × Bool :=
  let distance := calculate_distance p.1 p.2 cluster.center_lat cluster.center_lng * 1000
  if distance ≤ cluster.radius then
    ({ cluster with locations := cluster.locations ++ [p] }, true)
  else (cluster, false)

/-- The inner loop of `_create_location_clusters` (location_utils.py):
offer every not-yet-processed sample to the current cluster, marking the
absorbed ones processed. -/
noncomputable def clusterInnerLoop :
    LocationCluster → Finset ℕ → List (ℕ × (ℝ × ℝ)) → LocationCluster × Finset ℕ
  | cluster, processed, [] => (cluster, processed)
  | cluster, processed, (j, p) :: rest =>
    if j ∈ processed then clusterInnerLoop cluster processed rest
    else
      match add_location cluster p with
      | (c, true) => clusterInnerLoop c (insert j processed) rest
      | (_, false) => clusterInnerLoop cluster processed rest

/-- The outer loop of `_create_location_clusters` (location_utils.py): seed
a 100 m cluster at each unprocessed sample, absorb into it, and keep it only
when it ends with at least 2 members. -/
noncomputable def clusterOuterLoop (location_data : List (ℕ × (ℝ × ℝ))) :
    List (ℕ × (ℝ × ℝ)) → Finset ℕ → List LocationCluster → List LocationCluster
  | [], _, clusters => clusters
  | (i, p) :: rest, processed, clusters =>
    if i ∈ processed then clusterOuterLoop location_data rest processed clusters
    else
      let cluster := (add_location ⟨p.1, p.2, 100, []⟩ p).1
      let inner := clusterInnerLoop cluster (insert i processed) location_data
      if 2 ≤ inner.1.locations.length then
        clusterOuterLoop location_data rest inner.2 (clusters ++ [inner.1])
      else
        clusterOuterLoop location_data rest inner.2 clusters

/-- `_create_location_clusters` (location_utils.py), over the samples'
coordinate pairs in input order (the user roles paired with them in the
source are never read by the clustering). -/
noncomputable def _create_location_clusters (location_data : List (ℝ × ℝ)) :
    List LocationCluster :=
  clusterOuterLoop location_data.enum location_data.enum ∅ []

/-! ## Pickup-location scoring -/

/-- The `accessibility_scores` lookup table of `_calculate_pickup_score`
(location_utils.py), with its `.get(type, 50)` default. -/
def accessibility_scores (t : String) : ℚ :=
  if t = "entrance" then 90
  else if t = "building" then 80
  else if t = "hall" then 75
  else if t = "faculty" then 85
  else if t = "hostel" then 70
  else if t = "sports" then 60
  else if t = "hospital" then 95
  else if t = "library" then 85
  else if t = "food" then 65
  else if t = "service" then 70
  else if t = "religious" then 60
  else 50

/-- The fixed safe-landmark list of `_calculate_pickup_score`
(location_utils.py). -/
def safety_landmarks : List String :=
  ["main_gate", "sub", "teaching_hospital", "central_library"]

/-- The result record of `_calculate_pickup_score` (location_utils.py). -/
structure PickupScore where
  total_score : ℝ
  distance : ℝ
  driver_count : ℕ
  accessibility : ℚ
  safety : ℚ
  wait_time : ℤ

/-- `_calculate_pickup_score` (location_utils.py).  The landmark argument is
reduced to the fields the function reads (`id`, `type`, `distance_meters`);
`driver_distances` are the `distance_meters` entries of `driver_locations`. -/
noncomputable def _calculate_pickup_score (landmark_id landmark_type : String)
    (distance_meters : ℝ) (driver_distances : List ℝ) : PickupScore :=
  let distance_km := distance_meters / 1000
  let distance_score := max 0 (100 - distance_km * 50)
  let nearby_drivers := (driver_distances.filter fun d => decide (d ≤ 500)).length
  let driver_score : ℕ := min 100 (nearby_drivers * 25)
  let accessibility_score := accessibility_scores landmark_type
  let safety_score : ℚ := if landmark_id ∈ safety_landmarks then 90 else 70
  let wait_time : ℤ :=
    if 0 < nearby_drivers then max 2 (10 - (nearby_drivers : ℤ) * 2) else 15
  let total_score := pyRoundTo 1 (distance_score * 0.3 + (driver_score : ℝ) * 0.4 +
    (accessibility_score : ℝ) * 0.2 + (safety_score : ℝ) * 0.1)
  ⟨total_score, distance_km, nearby_drivers, accessibility_score, safety_score, wait_time⟩

/-! ## Bike-availability statistics (analytics.py) -/

/-- Percentage lookup `stats.get(key, {}).get("percentage", 0)` over the
per-category statistics list `(category, count, percentage)`. -/
def statPercentage (stats : List (String × ℕ × ℚ)) (k : String) : ℚ :=
  match stats.find? (fun p => p.1 == k) with
  | some p => p.2.2
  | none => 0

/-- `_determine_overall_bike_status` (analytics.py). -/
def _determine_overall_bike_status (stats : List (String × ℕ × ℚ)) : String :=
  if stats = [] then "unknown"
  else
    let high_percentage := statPercentage stats "high"
    let medium_percentage := statPercentage stats "medium"
    let low_percentage := statPercentage stats "low"
    let none_percentage := statPercentage stats "none"
    if high_percentage ≥ 50 then "excellent"
    else if high_percentage + medium_percentage ≥ 60 then "good"
    else if low_percentage + none_percentage ≥ 60 then "poor"
    else "moderate"

/-- The two shapes `_get_bike_availability_stats` (analytics.py) returns:
`{"status": "no_recent_data"}` with no reports, or the full report. -/
inductive BikeAvailabilityStats where
  | no_recent_data : BikeAvailabilityStats
  | report (total_reports : ℕ) (distribution : List (String × ℕ × ℚ))
      (overall_status : String) : BikeAvailabilityStats
deriving DecidableEq

/-- The pure tail of `_get_bike_availability_stats` (analytics.py), applied
to the grouped `(bike_availability, count)` rows its database query
returns. -/
def _get_bike_availability_stats (availability_data : List (String × ℕ)) :
    BikeAvailabilityStats :=
  let total_reports := (availability_data.map Prod.snd).sum
  if total_reports = 0 then .no_recent_data
  else
    let stats := availability_data.map fun p =>
      (p.1, p.2, pyRoundTo 1 ((p.2 : ℚ) / (total_reports : ℚ) * 100))
    .report total_reports stats (_determine_overall_bike_status stats)

/-! ## Hourly demand analysis (analytics.py) -/

/-- `{int(hour): count for ...}.get(h)`: a Python dict built from a list of
pairs keeps the last value written for a key. -/
def dictGet (hourly_data : List (ℕ × ℕ)) (h : ℕ) : Option ℕ :=
  (hourly_data.reverse.find? (fun p => p.1 == h)).map Prod.snd

/-- Python `max(items, key=value)`: the first item whose value no later item
strictly exceeds. -/
def argFirstMax : List (ℕ × ℕ) → ℕ × ℕ → ℕ × ℕ
  | [], best => best
  | p :: rest, best => argFirstMax rest (if best.2 < p.2 then p else best)

/-- Python `min(items, key=value)`: the first item whose value no later item
goes strictly below. -/
def argFirstMin : List (ℕ × ℕ) → ℕ × ℕ → ℕ × ℕ
  | [], best => best
  | p :: rest, best => argFirstMin rest (if p.2 < best.2 then p else best)

/-- The result record of `_analyze_hourly_demand` (analytics.py). -/
structure HourlyDemand where
  hourly_distribution : List (ℕ × ℕ)
  peak_hour : ℕ
  lowest_hour : ℕ
  average_hourly : ℚ

/-- The pure tail of `_analyze_hourly_demand` (analytics.py), applied to the
grouped `(hour, passenger_count)` rows of its database query: fill the 24
hours, take `max`/`min` by count, and average.  (`complete_hourly` is never
empty, so the `[]` branch, where the Python `max`/`min` would raise, is
given a dummy value.) -/
def _analyze_hourly_demand (hourly_data : List (ℕ × ℕ)) : HourlyDemand :=
  let complete_hourly := (List.range 24).map fun h => (h, (dictGet hourly_data h).getD 0)
  match complete_hourly with
  | [] => ⟨[], 0, 0, 0⟩
  | x :: xs =>
    ⟨complete_hourly, (argFirstMax xs x).1, (argFirstMin xs x).1,
      ((complete_hourly.map Prod.snd).sum : ℚ) / 24⟩

/-! ## Route efficiency (location_utils.py) -/

/-- `_get_efficiency_rating` (location_utils.py). -/
noncomputable def _get_efficiency_rating (efficiency_ratio : ℝ) : String :=
  if efficiency_ratio ≥ 0.95 then "Excellent"
  else if efficiency_ratio ≥ 0.85 then "Good"
  else if efficiency_ratio ≥ 0.70 then "Fair"
  else "Poor"

/-- The waypoint loop of `calculate_route_efficiency` (location_utils.py):
segment distances from the current point through the waypoints, then the
final segment to the destination. -/
noncomputable def routeDistance : ℝ × ℝ → List (ℝ × ℝ) → ℝ × ℝ → ℝ
  | current, [], endp => calculate_distance current.1 current.2 endp.1 endp.2
  | current, w :: ws, endp =>
    calculate_distance current.1 current.2 w.1 w.2 + routeDistance w ws endp

/-- The numeric fields (and rating) of the dictionary
`calculate_route_efficiency` (location_utils.py) returns.  The
`suggestions` and `calculated_at` entries are omitted: they depend on the
wall clock, not on the route arguments. -/
structure RouteEfficiency where
  direct_distance_km : ℝ
  route_distance_km : ℝ
  detour_distance_km : ℝ
  detour_percentage : ℝ
  efficiency_ratio : ℝ
  estimated_time_minutes : ℝ
  efficiency_rating : String

/-- `calculate_route_efficiency` (location_utils.py). -/
noncomputable def calculate_route_efficiency (start_location end_location : ℝ × ℝ)
    (waypoints : List (ℝ × ℝ)) : RouteEfficiency :=
  let direct_distance := calculate_distance start_location.1 start_location.2
    end_location.1 end_location.2
  let total_route_distance :=
    match waypoints with
    | [] => direct_distance
    | _ :: _ => routeDistance start_location waypoints end_location
  let efficiency_ratio :=
    if total_route_distance > 0 then direct_distance / total_route_distance else 0
  let detour_distance := total_route_distance - direct_distance
  let detour_percentage :=
    if direct_distance > 0 then detour_distance / direct_distance * 100 else 0
  let estimated_time_minutes := total_route_distance / 15 * 60
  ⟨pyRoundTo 2 direct_distance, pyRoundTo 2 total_route_distance,
    pyRoundTo 2 detour_distance, pyRoundTo 1 detour_percentage,
    pyRoundTo 3 efficiency_ratio, pyRoundTo 1 estimated_time_minutes,
    _get_efficiency_rating efficiency_ratio⟩


/-! ## The haversine distance is a central angle (spherical geometry) -/

/-- Dot product on `ℝ³` written as nested pairs; relates the haversine
formula to the angle between the unit vectors of two coordinates. -/
noncomputable def dot3 (a b : ℝ × ℝ × ℝ) : ℝ :=
  a.1 * b.1 + a.2.1 * b.2.1 + a.2.2 * b.2.2

/-- The unit vector on the sphere of a latitude/longitude pair (degrees). -/
noncomputable def sphVec (lat lon : ℝ) : ℝ × ℝ × ℝ :=
  (Real.cos (radians lat) * Real.cos (radians lon),
   Real.cos (radians lat) * Real.sin (radians lon),
   Real.sin (radians lat))

/-! ## Theorems: basic facts about the haversine distance -/

theorem calculate_distance_self (lat lon : ℝ) :
    calculate_distance lat lon lat lon = 0 := by
  simp [calculate_distance]

theorem calculate_distance_symm (lat1 lon1 lat2 lon2 : ℝ) :
    calculate_distance lat1 lon1 lat2 lon2 = calculate_distance lat2 lon2 lat1 lon1 := by
  unfold calculate_distance
  have h1 : radians lat1 - radians lat2 = -(radians lat2 - radians lat1) := by ring
  have h2 : radians lon1 - radians lon2 = -(radians lon2 - radians lon1) := by ring
  simp only [h1, h2, neg_div, Real.sin_neg, neg_sq]
  ring_nf

theorem calculate_distance_nonneg (lat1 lon1 lat2 lon2 : ℝ) :
    0 ≤ calculate_distance lat1 lon1 lat2 lon2 := by
  unfold calculate_distance
  have := Real.arcsin_nonneg.mpr (Real.sqrt_nonneg
    (Real.sin ((radians lat2 - radians lat1) / 2) ^ 2 +
      Real.cos (radians lat1) * Real.cos (radians lat2) *
        Real.sin ((radians lon2 - radians lon1) / 2) ^ 2))
  positivity

/-! ## Theorems: the haversine distance is a central angle -/

theorem dot3_self_sphVec (lat lon : ℝ) :
    dot3 (sphVec lat lon) (sphVec lat lon) = 1 := by
  simp only [dot3, sphVec]
  nlinarith [Real.sin_sq_add_cos_sq (radians lat), Real.sin_sq_add_cos_sq (radians lon)]

theorem dot3_sq_le (a b : ℝ × ℝ × ℝ) : dot3 a b ^ 2 ≤ dot3 a a * dot3 b b := by
  obtain ⟨a1, a2, a3⟩ := a
  obtain ⟨b1, b2, b3⟩ := b
  simp only [dot3]
  nlinarith [sq_nonneg (a1 * b2 - a2 * b1), sq_nonneg (a1 * b3 - a3 * b1),
    sq_nonneg (a2 * b3 - a3 * b2)]

theorem abs_dot3_le_one {a b : ℝ × ℝ × ℝ} (ha : dot3 a a = 1) (hb : dot3 b b = 1) :
    -1 ≤ dot3 a b ∧ dot3 a b ≤ 1 := by
  have h := dot3_sq_le a b
  rw [ha, hb] at h
  constructor <;> nlinarith [h]

set_option maxHeartbeats 1000000 in
theorem dot3_key {a b c : ℝ × ℝ × ℝ} (ha : dot3 a a = 1) (hb : dot3 b b = 1)
    (hc : dot3 c c = 1) :
    dot3 a b * dot3 b c -
      Real.sqrt (1 - dot3 a b ^ 2) * Real.sqrt (1 - dot3 b c ^ 2) ≤ dot3 a c := by
  obtain ⟨a1, a2, a3⟩ := a
  obtain ⟨b1, b2, b3⟩ := b
  obtain ⟨c1, c2, c3⟩ := c
  simp only [dot3] at *
  obtain ⟨α, hα⟩ : ∃ t : ℝ, a1 * b1 + a2 * b2 + a3 * b3 = t := ⟨_, rfl⟩
  obtain ⟨β, hβ⟩ : ∃ t : ℝ, b1 * c1 + b2 * c2 + b3 * c3 = t := ⟨_, rfl⟩
  rw [hα, hβ]
  have hpp : (a1 - α * b1) * (a1 - α * b1) + (a2 - α * b2) * (a2 - α * b2) +
      (a3 - α * b3) * (a3 - α * b3) = 1 - α ^ 2 := by
    linear_combination ha + α ^ 2 * hb - 2 * α * hα
  have hqq : (c1 - β * b1) * (c1 - β * b1) + (c2 - β * b2) * (c2 - β * b2) +
      (c3 - β * b3) * (c3 - β * b3) = 1 - β ^ 2 := by
    linear_combination hc + β ^ 2 * hb - 2 * β * hβ
  have hpq : (a1 - α * b1) * (c1 - β * b1) + (a2 - α * b2) * (c2 - β * b2) +
      (a3 - α * b3) * (c3 - β * b3) =
      (a1 * c1 + a2 * c2 + a3 * c3) - α * β := by
    linear_combination α * β * hb - β * hα - α * hβ
  have hcs : ((a1 - α * b1) * (c1 - β * b1) + (a2 - α * b2) * (c2 - β * b2) +
      (a3 - α * b3) * (c3 - β * b3)) ^ 2 ≤ (1 - α ^ 2) * (1 - β ^ 2) := by
    have := dot3_sq_le (a1 - α * b1, a2 - α * b2, a3 - α * b3)
      (c1 - β * b1, c2 - β * b2, c3 - β * b3)
    simp only [dot3] at this
    rw [hpp, hqq] at this
    exact this
  have h1 : (0 : ℝ) ≤ 1 - α ^ 2 := by
    nlinarith [hpp, sq_nonneg (a1 - α * b1), sq_nonneg (a2 - α * b2),
      sq_nonneg (a3 - α * b3)]
  have habs : |(a1 - α * b1) * (c1 - β * b1) + (a2 - α * b2) * (c2 - β * b2) +
      (a3 - α * b3) * (c3 - β * b3)| ≤
      Real.sqrt (1 - α ^ 2) * Real.sqrt (1 - β ^ 2) := by
    rw [← Real.sqrt_mul h1]
    exact Real.abs_le_sqrt hcs
  have hlow := neg_abs_le ((a1 - α * b1) * (c1 - β * b1) + (a2 - α * b2) * (c2 - β * b2) +
    (a3 - α * b3) * (c3 - β * b3))
  linarith [habs, hlow, hpq]

theorem arccos_anti {x y : ℝ} (h : x ≤ y) : Real.arccos y ≤ Real.arccos x := by
  rw [Real.arccos_eq_pi_div_two_sub_arcsin, Real.arccos_eq_pi_div_two_sub_arcsin]
  have := Real.monotone_arcsin h
  linarith

/-- Subadditivity of the central angle over unit vectors (the spherical
triangle inequality). -/
theorem arccos_dot3_triangle {a b c : ℝ × ℝ × ℝ} (ha : dot3 a a = 1)
    (hb : dot3 b b = 1) (hc : dot3 c c = 1) :
    Real.arccos (dot3 a c) ≤ Real.arccos (dot3 a b) + Real.arccos (dot3 b c) := by
  obtain ⟨hα1, hα2⟩ := abs_dot3_le_one ha hb
  obtain ⟨hβ1, hβ2⟩ := abs_dot3_le_one hb hc
  by_cases hπ : π ≤ Real.arccos (dot3 a b) + Real.arccos (dot3 b c)
  · exact le_trans (Real.arccos_le_pi _) hπ
  push_neg at hπ
  have hAB0 : 0 ≤ Real.arccos (dot3 a b) + Real.arccos (dot3 b c) :=
    add_nonneg (Real.arccos_nonneg _) (Real.arccos_nonneg _)
  have hcos : Real.cos (Real.arccos (dot3 a b) + Real.arccos (dot3 b c)) ≤ dot3 a c := by
    rw [Real.cos_add, Real.cos_arccos hα1 hα2, Real.cos_arccos hβ1 hβ2,
      Real.sin_arccos, Real.sin_arccos]
    exact dot3_key ha hb hc
  have := arccos_anti hcos
  rwa [Real.arccos_cos hAB0 hπ.le] at this

/-- The haversine formula computes Earth radius times the central angle
between the two coordinates' unit vectors, for all real inputs. -/
theorem calculate_distance_eq_arccos (lat1 lon1 lat2 lon2 : ℝ) :
    calculate_distance lat1 lon1 lat2 lon2 =
      6371 * Real.arccos (dot3 (sphVec lat1 lon1) (sphVec lat2 lon2)) := by
  have hu1 := dot3_self_sphVec lat1 lon1
  have hu2 := dot3_self_sphVec lat2 lon2
  obtain ⟨hc1, hc2⟩ := abs_dot3_le_one hu1 hu2
  set cth := dot3 (sphVec lat1 lon1) (sphVec lat2 lon2) with hcth
  have hdot : cth = Real.cos (radians lat1) * Real.cos (radians lat2) *
      Real.cos (radians lon2 - radians lon1) +
      Real.sin (radians lat1) * Real.sin (radians lat2) := by
    rw [hcth]; simp only [dot3, sphVec]
    rw [Real.cos_sub]; ring
  set θ := Real.arccos cth with hθ
  have hθ0 : 0 ≤ θ := Real.arccos_nonneg _
  have hθπ : θ ≤ π := Real.arccos_le_pi _
  have hcosθ : Real.cos θ = cth := Real.cos_arccos hc1 hc2
  have hhalf : Real.sin (θ / 2) ^ 2 = (1 - cth) / 2 := by
    rw [Real.sin_sq_eq_half_sub]
    have : 2 * (θ / 2) = θ := by ring
    rw [this, hcosθ]; ring
  have ha : Real.sin ((radians lat2 - radians lat1) / 2) ^ 2 +
      Real.cos (radians lat1) * Real.cos (radians lat2) *
        Real.sin ((radians lon2 - radians lon1) / 2) ^ 2 = (1 - cth) / 2 := by
    rw [Real.sin_sq_eq_half_sub, Real.sin_sq_eq_half_sub]
    have e1 : 2 * ((radians lat2 - radians lat1) / 2) = radians lat2 - radians lat1 := by
      ring
    have e2 : 2 * ((radians lon2 - radians lon1) / 2) = radians lon2 - radians lon1 := by
      ring
    rw [e1, e2, Real.cos_sub, hdot]; ring
  have hsqrt : Real.sqrt ((1 - cth) / 2) = Real.sin (θ / 2) := by
    rw [← hhalf, Real.sqrt_sq_eq_abs, abs_of_nonneg]
    exact Real.sin_nonneg_of_nonneg_of_le_pi (by linarith) (by linarith [Real.pi_pos])
  have harcsin : Real.arcsin (Real.sin (θ / 2)) = θ / 2 :=
    Real.arcsin_sin (by linarith [Real.pi_pos]) (by linarith)
  simp only [calculate_distance]
  rw [ha, hsqrt, harcsin]
  ring

/-- Triangle inequality for the haversine distance. -/
theorem calculate_distance_triangle (lat1 lon1 lat2 lon2 lat3 lon3 : ℝ) :
    calculate_distance lat1 lon1 lat3 lon3 ≤
      calculate_distance lat1 lon1 lat2 lon2 +
        calculate_distance lat2 lon2 lat3 lon3 := by
  rw [calculate_distance_eq_arccos, calculate_distance_eq_arccos,
    calculate_distance_eq_arccos]
  have := arccos_dot3_triangle (dot3_self_sphVec lat1 lon1)
    (dot3_self_sphVec lat2 lon2) (dot3_self_sphVec lat3 lon3)
  linarith

/-! ## Theorems: Python rounding -/

section PyRound

variable {α : Type} [LinearOrderedField α] [FloorRing α]

theorem pyRound_exists_int (x : α) : ∃ n : ℤ, pyRound x = (n : α) := by
  unfold pyRound
  split_ifs with h1 h2
  · exact ⟨⌊x⌋, rfl⟩
  · exact ⟨⌊x⌋ + 1, by push_cast; ring⟩
  · exact ⟨round x, rfl⟩

theorem pyRound_le_add_half (x : α) : pyRound x ≤ x + 1 / 2 := by
  unfold pyRound
  split_ifs with h1 h2
  · linarith
  · linarith
  · have h := abs_sub_round x
    rw [abs_le] at h
    linarith [h.1]

theorem sub_half_le_pyRound (x : α) : x - 1 / 2 ≤ pyRound x := by
  unfold pyRound
  split_ifs with h1 h2
  · linarith
  · linarith
  · have h := abs_sub_round x
    rw [abs_le] at h
    linarith [h.2]

theorem floor_int_add_half (n : ℤ) : ⌊(n : α) + 1 / 2⌋ = n := by
  rw [Int.floor_eq_iff]
  constructor
  · linarith
  · norm_num

theorem floor_int_sub_half (n : ℤ) : ⌊(n : α) - 1 / 2⌋ = n - 1 := by
  rw [Int.floor_eq_iff]
  constructor
  · push_cast
    linarith
  · push_cast
    linarith

theorem pyRound_eq_sub_half {x : α} (h : pyRound x = x - 1 / 2) :
    x - ⌊x⌋ = 1 / 2 ∧ Even ⌊x⌋ := by
  unfold pyRound at h
  split_ifs at h with h1 h2
  · exact ⟨h1, h2⟩
  · exfalso
    linarith
  · exfalso
    have hx : x = ((round x : ℤ) : α) + 1 / 2 := by linarith
    have hfl : ⌊x⌋ = round x := by
      conv_lhs => rw [hx]
      exact floor_int_add_half _
    apply h1
    rw [hfl]
    linarith

theorem pyRound_eq_add_half {x : α} (h : pyRound x = x + 1 / 2) :
    x - ⌊x⌋ = 1 / 2 ∧ ¬Even ⌊x⌋ := by
  unfold pyRound at h
  split_ifs at h with h1 h2
  · exfalso
    linarith
  · exact ⟨h1, h2⟩
  · exfalso
    have hx : x = ((round x : ℤ) : α) - 1 / 2 := by linarith
    have hfl : ⌊x⌋ = round x - 1 := by
      conv_lhs => rw [hx]
      exact floor_int_sub_half _
    apply h1
    rw [hfl]
    push_cast
    linarith

theorem pyRound_mono {x y : α} (hxy : x ≤ y) : pyRound x ≤ pyRound y := by
  by_contra hlt
  push_neg at hlt
  obtain ⟨m, hm⟩ := pyRound_exists_int x
  obtain ⟨n, hn⟩ := pyRound_exists_int y
  have hnm : n < m := by
    rw [hm, hn] at hlt
    exact_mod_cast hlt
  have hle : (n : α) + 1 ≤ (m : α) := by exact_mod_cast Int.add_one_le_iff.mpr hnm
  have h1 : pyRound y + 1 ≤ pyRound x := by
    rw [hm, hn]
    linarith
  have h2 := pyRound_le_add_half x
  have h3 := sub_half_le_pyRound y
  have hy : pyRound y = y - 1 / 2 := le_antisymm (by linarith) h3
  have hx : pyRound x = x + 1 / 2 := le_antisymm h2 (by linarith)
  obtain ⟨hyf, hye⟩ := pyRound_eq_sub_half hy
  obtain ⟨hxf, hxo⟩ := pyRound_eq_add_half hx
  have hxey : x = y := le_antisymm hxy (by linarith)
  rw [hxey] at hxo
  exact hxo hye

theorem pyRound_intCast (n : ℤ) : pyRound ((n : α)) = n := by
  unfold pyRound
  rw [if_neg, round_intCast]
  simp [Int.floor_intCast]

theorem pyRound_zero : pyRound (0 : α) = 0 := by
  have h := pyRound_intCast (α := α) 0
  simpa using h

theorem pyRoundTo_mono (n : ℕ) {x y : α} (h : x ≤ y) :
    pyRoundTo n x ≤ pyRoundTo n y := by
  unfold pyRoundTo
  have h10 : (0 : α) < 10 ^ n := by positivity
  exact (div_le_div_iff_of_pos_right h10).mpr
    (pyRound_mono (mul_le_mul_of_nonneg_right h h10.le))

theorem pyRoundTo_intCast (n : ℕ) (k : ℤ) : pyRoundTo n ((k : α)) = k := by
  unfold pyRoundTo
  have hcast : ((k : α)) * 10 ^ n = ((k * 10 ^ n : ℤ) : α) := by
    push_cast
    ring
  rw [hcast, pyRound_intCast]
  have h10 : (10 : α) ^ n ≠ 0 := by positivity
  push_cast
  field_simp

theorem pyRoundTo_zero (n : ℕ) : pyRoundTo n (0 : α) = 0 := by
  have h := pyRoundTo_intCast (α := α) n 0
  simpa using h

theorem pyRoundTo_nonneg (n : ℕ) {x : α} (hx : 0 ≤ x) : 0 ≤ pyRoundTo n x := by
  have := pyRoundTo_mono n hx
  rwa [pyRoundTo_zero] at this

end PyRound

/-! ## Claim C3: distance symmetry, self-distance zero, haversine reading -/

/-- C3.  For every pair of coordinates `a`, `b`: `distance(a,b)` equals
`distance(b,a)`, and `distance(a,a)` equals `0`; the distance is the
haversine great-circle distance (Earth radius `6371` km — the last conjunct
reads the formula as `6371` times the central angle between the two
coordinates' unit vectors on the sphere). -/
theorem C3_distance_symmetric_self_zero (lat1 lon1 lat2 lon2 : ℝ) :
    calculate_distance lat1 lon1 lat2 lon2 = calculate_distance lat2 lon2 lat1 lon1 ∧
    calculate_distance lat1 lon1 lat1 lon1 = 0 ∧
    calculate_distance lat1 lon1 lat2 lon2 =
      6371 * Real.arccos (dot3 (sphVec lat1 lon1) (sphVec lat2 lon2)) :=
  ⟨calculate_distance_symm lat1 lon1 lat2 lon2, calculate_distance_self lat1 lon1,
    calculate_distance_eq_arccos lat1 lon1 lat2 lon2⟩

/-! ## Claim C5: campus zones, fixed priority order -/

/-- C5.  `resolveZone` evaluates the fixed rectangles in the order Academic,
Student Residential, Medical, Sports & Recreation and returns the first one
containing the point, else the catch-all; `resolveZone(0,0)` is
`"General Campus Area"`. -/
theorem C5_zone_priority_order (latitude longitude : ℝ) :
    (7.5200 ≤ latitude ∧ latitude ≤ 7.5260 ∧ 4.5180 ≤ longitude ∧ longitude ≤ 4.5230 →
      determine_campus_zone latitude longitude = "Academic Zone") ∧
    (¬(7.5200 ≤ latitude ∧ latitude ≤ 7.5260 ∧ 4.5180 ≤ longitude ∧ longitude ≤ 4.5230) ∧
      (7.5260 ≤ latitude ∧ latitude ≤ 7.5320 ∧ 4.5120 ≤ longitude ∧ longitude ≤ 4.5180) →
      determine_campus_zone latitude longitude = "Student Residential Zone") ∧
    (¬(7.5200 ≤ latitude ∧ latitude ≤ 7.5260 ∧ 4.5180 ≤ longitude ∧ longitude ≤ 4.5230) ∧
      ¬(7.5260 ≤ latitude ∧ latitude ≤ 7.5320 ∧ 4.5120 ≤ longitude ∧ longitude ≤ 4.5180) ∧
      (7.5320 ≤ latitude ∧ latitude ≤ 7.5380 ∧ 4.5100 ≤ longitude ∧ longitude ≤ 4.5150) →
      determine_campus_zone latitude longitude = "Medical Zone") ∧
    (¬(7.5200 ≤ latitude ∧ latitude ≤ 7.5260 ∧ 4.5180 ≤ longitude ∧ longitude ≤ 4.5230) ∧
      ¬(7.5260 ≤ latitude ∧ latitude ≤ 7.5320 ∧ 4.5120 ≤ longitude ∧ longitude ≤ 4.5180) ∧
      ¬(7.5320 ≤ latitude ∧ latitude ≤ 7.5380 ∧ 4.5100 ≤ longitude ∧ longitude ≤ 4.5150) ∧
      (7.5180 ≤ latitude ∧ latitude ≤ 7.5220 ∧ 4.5220 ≤ longitude ∧ longitude ≤ 4.5280) →
      determine_campus_zone latitude longitude = "Sports & Recreation Zone") ∧
    (¬(7.5200 ≤ latitude ∧ latitude ≤ 7.5260 ∧ 4.5180 ≤ longitude ∧ longitude ≤ 4.5230) ∧
      ¬(7.5260 ≤ latitude ∧ latitude ≤ 7.5320 ∧ 4.5120 ≤ longitude ∧ longitude ≤ 4.5180) ∧
      ¬(7.5320 ≤ latitude ∧ latitude ≤ 7.5380 ∧ 4.5100 ≤ longitude ∧ longitude ≤ 4.5150) ∧
      ¬(7.5180 ≤ latitude ∧ latitude ≤ 7.5220 ∧ 4.5220 ≤ longitude ∧ longitude ≤ 4.5280) →
      determine_campus_zone latitude longitude = "General Campus Area") ∧
    determine_campus_zone 0 0 = "General Campus Area" := by
  refine ⟨fun h => ?_, fun h => ?_, fun h => ?_, fun h => ?_, fun h => ?_, ?_⟩
  · rw [determine_campus_zone, if_pos h]
  · rw [determine_campus_zone, if_neg h.1, if_pos h.2]
  · rw [determine_campus_zone, if_neg h.1, if_neg h.2.1, if_pos h.2.2]
  · rw [determine_campus_zone, if_neg h.1, if_neg h.2.1, if_neg h.2.2.1, if_pos h.2.2.2]
  · rw [determine_campus_zone, if_neg h.1, if_neg h.2.1, if_neg h.2.2.1, if_neg h.2.2.2]
  · rw [determine_campus_zone]
    norm_num

/-- C5 witness: a concrete point of the Academic rectangle, the priority
conditions discharged at it. -/
theorem C5_zone_priority_order_witness :
    determine_campus_zone 7.5210 4.5200 = "Academic Zone" :=
  (C5_zone_priority_order 7.5210 4.5200).1 (by norm_num)

/-! ## Ray-casting evaluation lemmas -/

theorem edgeStep_of_max_lt {x y p1x p1y p2x p2y : ℝ} (i : Bool)
    (h : max p1y p2y < y) : edgeStep x y p1x p1y p2x p2y i = i := by
  rw [edgeStep, if_neg]
  intro hc
  exact absurd hc.2.1 (not_le.mpr h)

theorem edgeStep_of_le_min {x y p1x p1y p2x p2y : ℝ} (i : Bool)
    (h : y ≤ min p1y p2y) : edgeStep x y p1x p1y p2x p2y i = i := by
  rw [edgeStep, if_neg]
  intro hc
  exact absurd hc.1 (not_lt.mpr h)

theorem rayCast_of_y_above {x y : ℝ} {p0 : ℝ × ℝ} {l : List (ℝ × ℝ)} {i : Bool}
    (h0 : p0.2 < y) (hl : ∀ p ∈ l, p.2 < y) : rayCast x y p0 l i = i := by
  induction l generalizing p0 i with
  | nil => rfl
  | cons p2 rest ih =>
    rw [rayCast, edgeStep_of_max_lt i (max_lt h0 (hl p2 (List.mem_cons_self p2 rest)))]
    exact ih (hl p2 (List.mem_cons_self p2 rest)) fun p hp => hl p (List.mem_cons_of_mem _ hp)

theorem rayCast_of_y_below {x y : ℝ} {p0 : ℝ × ℝ} {l : List (ℝ × ℝ)} {i : Bool}
    (h0 : y ≤ p0.2) (hl : ∀ p ∈ l, y ≤ p.2) : rayCast x y p0 l i = i := by
  induction l generalizing p0 i with
  | nil => rfl
  | cons p2 rest ih =>
    rw [rayCast, edgeStep_of_le_min i (le_min h0 (hl p2 (List.mem_cons_self p2 rest)))]
    exact ih (hl p2 (List.mem_cons_self p2 rest)) fun p hp => hl p (List.mem_cons_of_mem _ hp)

/-- The latitude of every point of interest here (`7.51…`) is larger than
every *second* tuple component of the campus polygon (the longitudes,
`4.50…–4.53`), because `point_in_polygon` compares the test point's `y =
latitude` against the vertices' second components; so the ray-casting loop
never toggles and the polygon test is `False`. -/
theorem is_within_oau_polygon_false_of_above {latitude longitude : ℝ}
    (h : 4.5350 < latitude) : is_within_oau_polygon latitude longitude = false := by
  rw [is_within_oau_polygon, oau_polygon, point_in_polygon]
  apply rayCast_of_y_above
  · exact lt_of_le_of_lt (by norm_num) h
  · intro p hp
    have hb : p.2 ≤ 4.5350 := by fin_cases hp <;> norm_num
    exact lt_of_le_of_lt hb h

theorem is_within_oau_polygon_false_of_below {latitude longitude : ℝ}
    (h : latitude ≤ 4.5050) : is_within_oau_polygon latitude longitude = false := by
  rw [is_within_oau_polygon, oau_polygon, point_in_polygon]
  apply rayCast_of_y_below
  · exact le_trans h (by norm_num)
  · intro p hp
    have hb : 4.5050 ≤ p.2 := by fin_cases hp <;> norm_num
    exact le_trans h hb

theorem is_within_oau_campus_false_of_polygon {latitude longitude : ℝ}
    (h : is_within_oau_polygon latitude longitude = false) :
    is_within_oau_campus latitude longitude = false := by
  rw [is_within_oau_campus]
  split_ifs with hd
  · rfl
  · exact h

/-! ## Claim C2: geofence stages; the campus center is NOT within campus -/

/-- C2.  The two-stage structure holds: a point farther than the campus
radius from the center is rejected, and otherwise the polygon test decides;
and `isWithinCampus(0,0) = false`.  But the claim's assertion that the
campus center `(7.5227, 4.5198)` is within campus is FALSE in the code: the
final conjunct evaluates `is_within_oau_campus` at the center to `false`.
`point_in_polygon` unpacks the test point as `x, y = lon, lat` but each
polygon vertex `(lat, lng)` as `(px, py)`, so it compares the point's
latitude (`7.52…`) against the vertices' longitudes (`4.50…–4.53`): no edge
is ever crossed, the polygon test is `False` everywhere on campus, and stage
2 rejects the center. -/
theorem C2_campus_stages_center_not_within :
    (∀ latitude longitude : ℝ,
      OAU_RADIUS_KM <
          calculate_distance latitude longitude OAU_CENTER_LAT OAU_CENTER_LNG →
        is_within_oau_campus latitude longitude = false) ∧
    (∀ latitude longitude : ℝ,
      calculate_distance latitude longitude OAU_CENTER_LAT OAU_CENTER_LNG ≤
          OAU_RADIUS_KM →
        is_within_oau_campus latitude longitude =
          is_within_oau_polygon latitude longitude) ∧
    is_within_oau_campus 0 0 = false ∧
    is_within_oau_campus 7.5227 4.5198 = false := by
  refine ⟨fun latitude longitude h => ?_, fun latitude longitude h => ?_, ?_, ?_⟩
  · rw [is_within_oau_campus, if_pos h]
  · rw [is_within_oau_campus, if_neg (not_lt.mpr h)]
  · exact is_within_oau_campus_false_of_polygon
      (is_within_oau_polygon_false_of_below (by norm_num))
  · exact is_within_oau_campus_false_of_polygon
      (is_within_oau_polygon_false_of_above (by norm_num))

/-! ## Claim C1: coordinate validation -/

/-- C1 (amended).  `validateCoordinates` range-checks first; if either
coordinate is out of range it reports the specific range violation(s) and
performs no further classification; if both are in range it reports campus
membership and distance from center, and reports nearest landmark and zone
only when the point is within campus — otherwise it reports the
outside-campus error with no landmark and no zone. -/
theorem C1_validate_coordinates_range_first (latitude longitude : ℝ) :
    (¬(-90 ≤ latitude ∧ latitude ≤ 90) →
      "Invalid latitude: must be between -90 and 90" ∈
          (validate_coordinates latitude longitude).errors ∧
        (validate_coordinates latitude longitude).valid = false ∧
        (validate_coordinates latitude longitude).within_campus = false ∧
        (validate_coordinates latitude longitude).nearest_landmark = none ∧
        (validate_coordinates latitude longitude).distance_from_center = none ∧
        (validate_coordinates latitude longitude).zone = none) ∧
    (¬(-180 ≤ longitude ∧ longitude ≤ 180) →
      "Invalid longitude: must be between -180 and 180" ∈
          (validate_coordinates latitude longitude).errors ∧
        (validate_coordinates latitude longitude).valid = false ∧
        (validate_coordinates latitude longitude).within_campus = false ∧
        (validate_coordinates latitude longitude).nearest_landmark = none ∧
        (validate_coordinates latitude longitude).distance_from_center = none ∧
        (validate_coordinates latitude longitude).zone = none) ∧
    ((-90 ≤ latitude ∧ latitude ≤ 90) → (-180 ≤ longitude ∧ longitude ≤ 180) →
      (validate_coordinates latitude longitude).within_campus =
          is_within_oau_campus latitude longitude ∧
        (validate_coordinates latitude longitude).distance_from_center =
          some (calculate_distance latitude longitude OAU_CENTER_LAT OAU_CENTER_LNG) ∧
        (is_within_oau_campus latitude longitude = true →
          (validate_coordinates latitude longitude).valid = true ∧
            (validate_coordinates latitude longitude).nearest_landmark =
              some (get_nearest_landmark latitude longitude 1) ∧
            (validate_coordinates latitude longitude).zone =
              some (determine_campus_zone latitude longitude) ∧
            (validate_coordinates latitude longitude).errors = []) ∧
        (is_within_oau_campus latitude longitude = false →
          (validate_coordinates latitude longitude).valid = false ∧
            (validate_coordinates latitude longitude).nearest_landmark = none ∧
            (validate_coordinates latitude longitude).zone = none ∧
            (validate_coordinates latitude longitude).errors =
              ["Location is outside OAU campus boundaries"])) := by
  refine ⟨fun h => ?_, fun h => ?_, fun hlat hlon => ?_⟩
  · simp only [validate_coordinates, if_pos h, List.singleton_append]
    rw [if_pos (List.cons_ne_nil _ _)]
    exact ⟨List.mem_cons_self _ _, rfl, rfl, rfl, rfl, rfl⟩
  · by_cases hlat : (-90 ≤ latitude ∧ latitude ≤ 90)
    · simp only [validate_coordinates, if_pos h, if_neg (not_not_intro hlat),
        List.nil_append]
      rw [if_pos (List.cons_ne_nil _ _)]
      exact ⟨List.mem_cons_self _ _, rfl, rfl, rfl, rfl, rfl⟩
    · simp only [validate_coordinates, if_pos h, if_pos hlat, List.singleton_append]
      rw [if_pos (List.cons_ne_nil _ _)]
      refine ⟨?_, rfl, rfl, rfl, rfl, rfl⟩
      exact List.mem_cons_of_mem _ (List.mem_cons_self _ _)
  · simp only [validate_coordinates, if_neg (not_not_intro hlat),
      if_neg (not_not_intro hlon), List.nil_append]
    rw [if_neg (not_not_intro rfl)]
    rcases Bool.eq_false_or_eq_true (is_within_oau_campus latitude longitude) with
      hw | hw
    · rw [hw, if_pos rfl]
      exact ⟨rfl, rfl, fun _ => ⟨rfl, rfl, rfl, rfl⟩,
        fun hcontra => absurd hcontra (by simp)⟩
    · rw [hw, if_neg Bool.false_ne_true]
      exact ⟨rfl, rfl, fun hcontra => absurd hcontra (by simp),
        fun _ => ⟨rfl, rfl, rfl, rfl⟩⟩

/-- C1 counterexample to the claim as frozen: `(0, 0)` is in range for both
coordinates, yet `validate_coordinates` reports no nearest landmark and no
zone (both `none`) — contrary to "if both are in range it reports campus
membership, distance from center, nearest landmark, and zone".  (The code
reports landmark and zone only for points within campus.) -/
theorem C1_counterexample_in_range_no_classification :
    ((-90 : ℝ) ≤ 0 ∧ (0 : ℝ) ≤ 90) ∧ ((-180 : ℝ) ≤ 0 ∧ (0 : ℝ) ≤ 180) ∧
    (validate_coordinates 0 0).nearest_landmark = none ∧
    (validate_coordinates 0 0).zone = none ∧
    (validate_coordinates 0 0).errors = ["Location is outside OAU campus boundaries"] := by
  have hw : is_within_oau_campus 0 0 = false :=
    is_within_oau_campus_false_of_polygon
      (is_within_oau_polygon_false_of_below (by norm_num))
  have hlat : ¬¬((-90 : ℝ) ≤ 0 ∧ (0 : ℝ) ≤ 90) := not_not_intro (by norm_num)
  have hlon : ¬¬((-180 : ℝ) ≤ 0 ∧ (0 : ℝ) ≤ 180) := not_not_intro (by norm_num)
  refine ⟨by norm_num, by norm_num, ?_, ?_, ?_⟩ <;>
    · simp only [validate_coordinates, if_neg hlat, if_neg hlon, List.nil_append]
      rw [if_neg (not_not_intro rfl), hw, if_neg Bool.false_ne_true]

/-- C1 witness: the amended theorem applied at the out-of-range latitude
`100`, the hypothesis discharged concretely. -/
theorem C1_validate_coordinates_range_first_witness :
    "Invalid latitude: must be between -90 and 90" ∈
        (validate_coordinates 100 0).errors ∧
      (validate_coordinates 100 0).valid = false :=
  have h := (C1_validate_coordinates_range_first 100 0).1 (by norm_num)
  ⟨h.1, h.2.1⟩

/-! ## Claim C8: overall bike-availability status -/

/-- C8.  The overall status is the first matching rule in order — `high ≥
50` → excellent, `high+medium ≥ 60` → good, `low+none ≥ 60` → poor, else
moderate — and with zero recent reports the result is the distinct
`no_recent_data` shape. -/
theorem C8_bike_status_thresholds (stats : List (String × ℕ × ℚ))
    (availability_data : List (String × ℕ)) :
    (stats ≠ [] → 50 ≤ statPercentage stats "high" →
      _determine_overall_bike_status stats = "excellent") ∧
    (stats ≠ [] → statPercentage stats "high" < 50 →
      60 ≤ statPercentage stats "high" + statPercentage stats "medium" →
      _determine_overall_bike_status stats = "good") ∧
    (stats ≠ [] → statPercentage stats "high" < 50 →
      statPercentage stats "high" + statPercentage stats "medium" < 60 →
      60 ≤ statPercentage stats "low" + statPercentage stats "none" →
      _determine_overall_bike_status stats = "poor") ∧
    (stats ≠ [] → statPercentage stats "high" < 50 →
      statPercentage stats "high" + statPercentage stats "medium" < 60 →
      statPercentage stats "low" + statPercentage stats "none" < 60 →
      _determine_overall_bike_status stats = "moderate") ∧
    ((availability_data.map Prod.snd).sum = 0 →
      _get_bike_availability_stats availability_data =
        BikeAvailabilityStats.no_recent_data) ∧
    (∀ t d s, BikeAvailabilityStats.no_recent_data ≠
      BikeAvailabilityStats.report t d s) := by
  refine ⟨fun hne h1 => ?_, fun hne h1 h2 => ?_, fun hne h1 h2 h3 => ?_,
    fun hne h1 h2 h3 => ?_, fun h => ?_, fun t d s h => ?_⟩
  · simp only [_determine_overall_bike_status]
    rw [if_neg hne, if_pos h1]
  · simp only [_determine_overall_bike_status]
    rw [if_neg hne, if_neg (not_le.mpr h1), if_pos h2]
  · simp only [_determine_overall_bike_status]
    rw [if_neg hne, if_neg (not_le.mpr h1), if_neg (not_le.mpr h2), if_pos h3]
  · simp only [_determine_overall_bike_status]
    rw [if_neg hne, if_neg (not_le.mpr h1), if_neg (not_le.mpr h2),
      if_neg (not_le.mpr h3)]
  · simp only [_get_bike_availability_stats]
    rw [if_pos h]
  · exact BikeAvailabilityStats.noConfusion h

/-- C8 witness: the spec's own examples — `{high: 60%}` is "excellent",
`{low: 40%, none: 30%}` is "poor", and an empty report set yields
`no_recent_data` — obtained by applying the theorem at those inputs. -/
theorem C8_bike_status_thresholds_witness :
    _determine_overall_bike_status [("high", 6, 60)] = "excellent" ∧
    _determine_overall_bike_status [("low", 4, 40), ("none", 3, 30)] = "poor" ∧
    _get_bike_availability_stats [] = BikeAvailabilityStats.no_recent_data :=
  ⟨(C8_bike_status_thresholds [("high", 6, 60)] []).1 (by simp)
      (by rw [show statPercentage [("high", 6, 60)] "high" = 60 from rfl]; norm_num),
    (C8_bike_status_thresholds [("low", 4, 40), ("none", 3, 30)] []).2.2.1
      (by simp)
      (by rw [show statPercentage [("low", 4, 40), ("none", 3, 30)] "high" = 0
            from rfl]
          norm_num)
      (by rw [show statPercentage [("low", 4, 40), ("none", 3, 30)] "high" = 0
            from rfl,
            show statPercentage [("low", 4, 40), ("none", 3, 30)] "medium" = 0
            from rfl]
          norm_num)
      (by rw [show statPercentage [("low", 4, 40), ("none", 3, 30)] "low" = 40
            from rfl,
            show statPercentage [("low", 4, 40), ("none", 3, 30)] "none" = 30
            from rfl]
          norm_num),
    (C8_bike_status_thresholds [] []).2.2.2.2.1 (by simp)⟩

/-! ## Claim C9: hourly demand distribution -/

theorem argFirstMax_mem (l : List (ℕ × ℕ)) (best : ℕ × ℕ) :
    argFirstMax l best ∈ best :: l := by
  induction l generalizing best with
  | nil => exact List.mem_cons_self _ _
  | cons p rest ih =>
    rw [argFirstMax]
    by_cases hc : best.2 < p.2
    · rw [if_pos hc]
      exact List.mem_cons_of_mem _ (ih p)
    · rw [if_neg hc]
      rcases List.mem_cons.mp (ih best) with h | h
      · rw [h]
        exact List.mem_cons_self _ _
      · exact List.mem_cons_of_mem _ (List.mem_cons_of_mem _ h)

theorem argFirstMax_le (l : List (ℕ × ℕ)) (best : ℕ × ℕ) :
    ∀ q ∈ best :: l, q.2 ≤ (argFirstMax l best).2 := by
  induction l generalizing best with
  | nil =>
    intro q hq
    rw [List.mem_singleton] at hq
    rw [hq, argFirstMax]
  | cons p rest ih =>
    intro q hq
    rw [argFirstMax]
    by_cases hc : best.2 < p.2
    · rw [if_pos hc]
      rcases List.mem_cons.mp hq with rfl | hq'
      · exact le_trans hc.le (ih p p (List.mem_cons_self _ _))
      · rcases List.mem_cons.mp hq' with rfl | hq''
        · exact ih q q (List.mem_cons_self _ _)
        · exact ih p q (List.mem_cons_of_mem _ hq'')
    · rw [if_neg hc]
      rcases List.mem_cons.mp hq with rfl | hq'
      · exact ih q q (List.mem_cons_self _ _)
      · rcases List.mem_cons.mp hq' with rfl | hq''
        · exact le_trans (not_lt.mp hc) (ih best best (List.mem_cons_self _ _))
        · exact ih best q (List.mem_cons_of_mem _ hq'')

theorem argFirstMin_mem (l : List (ℕ × ℕ)) (best : ℕ × ℕ) :
    argFirstMin l best ∈ best :: l := by
  induction l generalizing best with
  | nil => exact List.mem_cons_self _ _
  | cons p rest ih =>
    rw [argFirstMin]
    by_cases hc : p.2 < best.2
    · rw [if_pos hc]
      exact List.mem_cons_of_mem _ (ih p)
    · rw [if_neg hc]
      rcases List.mem_cons.mp (ih best) with h | h
      · rw [h]
        exact List.mem_cons_self _ _
      · exact List.mem_cons_of_mem _ (List.mem_cons_of_mem _ h)

theorem argFirstMin_le (l : List (ℕ × ℕ)) (best : ℕ × ℕ) :
    ∀ q ∈ best :: l, (argFirstMin l best).2 ≤ q.2 := by
  induction l generalizing best with
  | nil =>
    intro q hq
    rw [List.mem_singleton] at hq
    rw [hq, argFirstMin]
  | cons p rest ih =>
    intro q hq
    rw [argFirstMin]
    by_cases hc : p.2 < best.2
    · rw [if_pos hc]
      rcases List.mem_cons.mp hq with rfl | hq'
      · exact le_trans (ih p p (List.mem_cons_self _ _)) hc.le
      · rcases List.mem_cons.mp hq' with rfl | hq''
        · exact ih q q (List.mem_cons_self _ _)
        · exact ih p q (List.mem_cons_of_mem _ hq'')
    · rw [if_neg hc]
      rcases List.mem_cons.mp hq with rfl | hq'
      · exact ih q q (List.mem_cons_self _ _)
      · rcases List.mem_cons.mp hq' with rfl | hq''
        · exact le_trans (ih best best (List.mem_cons_self _ _)) (not_lt.mp hc)
        · exact ih best q (List.mem_cons_of_mem _ hq'')

theorem dictGet_eq_none {hourly_data : List (ℕ × ℕ)} {h : ℕ}
    (habs : ∀ p ∈ hourly_data, p.1 ≠ h) : dictGet hourly_data h = none := by
  rw [dictGet, List.find?_eq_none.mpr, Option.map_none']
  intro x hx
  simpa using habs x (List.mem_reverse.mp hx)

theorem analyze_hourly_demand_eq (d : List (ℕ × ℕ)) (x : ℕ × ℕ) (xs : List (ℕ × ℕ))
    (hm : (List.range 24).map (fun h => (h, (dictGet d h).getD 0)) = x :: xs) :
    _analyze_hourly_demand d =
      ⟨x :: xs, (argFirstMax xs x).1, (argFirstMin xs x).1,
        (((x :: xs).map Prod.snd).sum : ℚ) / 24⟩ := by
  simp only [_analyze_hourly_demand]
  rw [hm]

/-- C9.  The hourly distribution has exactly the keys `0..23` in order,
hours absent from the data are mapped to `0`, and the reported peak and
lowest hours are an argmax and argmin of the completed distribution. -/
theorem C9_hourly_distribution_complete (hourly_data : List (ℕ × ℕ)) :
    ((_analyze_hourly_demand hourly_data).hourly_distribution.map Prod.fst =
      List.range 24) ∧
    (∀ h : ℕ, h < 24 → (∀ p ∈ hourly_data, p.1 ≠ h) →
      (h, 0) ∈ (_analyze_hourly_demand hourly_data).hourly_distribution) ∧
    (∃ c, ((_analyze_hourly_demand hourly_data).peak_hour, c) ∈
        (_analyze_hourly_demand hourly_data).hourly_distribution ∧
      ∀ q ∈ (_analyze_hourly_demand hourly_data).hourly_distribution, q.2 ≤ c) ∧
    (∃ c, ((_analyze_hourly_demand hourly_data).lowest_hour, c) ∈
        (_analyze_hourly_demand hourly_data).hourly_distribution ∧
      ∀ q ∈ (_analyze_hourly_demand hourly_data).hourly_distribution, c ≤ q.2) := by
  cases hm : (List.range 24).map (fun h => (h, (dictGet hourly_data h).getD 0)) with
  | nil =>
    exfalso
    rw [List.map_eq_nil_iff] at hm
    simp [List.range_eq_nil] at hm
  | cons x xs =>
    rw [analyze_hourly_demand_eq hourly_data x xs hm]
    refine ⟨?_, ?_, ?_, ?_⟩
    · rw [← hm, List.map_map]
      have hcomp : (Prod.fst ∘ fun h : ℕ => (h, (dictGet hourly_data h).getD 0)) =
          fun h => h := rfl
      rw [hcomp]
      exact List.map_id' _
    · intro h hlt habs
      rw [← hm]
      exact List.mem_map.mpr ⟨h, List.mem_range.mpr hlt,
        by rw [dictGet_eq_none habs, Option.getD_none]⟩
    · exact ⟨(argFirstMax xs x).2,
        by rw [Prod.mk.eta]; exact argFirstMax_mem xs x, argFirstMax_le xs x⟩
    · exact ⟨(argFirstMin xs x).2,
        by rw [Prod.mk.eta]; exact argFirstMin_mem xs x, argFirstMin_le xs x⟩

/-! ## Claim C7: closer pickup landmarks never score lower -/

/-- C7.  With driver list, accessibility (landmark type) and safety
(landmark id) held equal, a strictly closer landmark never receives a lower
total weighted score: the distance penalty `max(0, 100 − km·50)` is
non-increasing in distance and enters with weight `0.3`, and the final
banker's rounding is monotone. -/
theorem C7_pickup_closer_never_scores_lower (landmark_id landmark_type : String)
    (d1 d2 : ℝ) (driver_distances : List ℝ) (h : d1 < d2) :
    (_calculate_pickup_score landmark_id landmark_type d2 driver_distances).total_score ≤
      (_calculate_pickup_score landmark_id landmark_type d1 driver_distances).total_score := by
  simp only [_calculate_pickup_score]
  apply pyRoundTo_mono
  have hds : max 0 (100 - d2 / 1000 * 50) ≤ max 0 (100 - d1 / 1000 * 50) :=
    max_le_max (le_refl 0) (by linarith)
  linarith [hds]

/-- C7 witness: at distance `0` versus `1000` meters (same landmark
identity, type, and drivers), the closer score is at least the farther
one. -/
theorem C7_pickup_closer_never_scores_lower_witness :
    (0 : ℝ) < 1000 ∧
    (_calculate_pickup_score "main_gate" "entrance" 1000 []).total_score ≤
      (_calculate_pickup_score "main_gate" "entrance" 0 []).total_score :=
  ⟨by norm_num,
    C7_pickup_closer_never_scores_lower "main_gate" "entrance" 0 1000 [] (by norm_num)⟩

/-! ## Claim C10: route distance dominates direct distance -/

theorem routeDistance_ge (start_location end_location : ℝ × ℝ)
    (waypoints : List (ℝ × ℝ)) :
    calculate_distance start_location.1 start_location.2
        end_location.1 end_location.2 ≤
      routeDistance start_location waypoints end_location := by
  induction waypoints generalizing start_location with
  | nil => exact le_refl _
  | cons w ws ih =>
    rw [routeDistance]
    have htri := calculate_distance_triangle start_location.1 start_location.2
      w.1 w.2 end_location.1 end_location.2
    have hrec := ih w
    linarith

theorem route_bounds_core (D R : ℝ) (hD0 : 0 ≤ D) (hDR : D ≤ R) :
    pyRoundTo 2 D ≤ pyRoundTo 2 R ∧
    0 ≤ pyRoundTo 3 (if R > 0 then D / R else 0) ∧
    pyRoundTo 3 (if R > 0 then D / R else 0) ≤ 1 ∧
    0 ≤ pyRoundTo 2 (R - D) ∧
    0 ≤ pyRoundTo 1 (if D > 0 then (R - D) / D * 100 else 0) := by
  have hratio0 : 0 ≤ (if R > 0 then D / R else 0) := by
    split_ifs with hR
    · exact div_nonneg hD0 hR.le
    · exact le_refl 0
  have hratio1 : (if R > 0 then D / R else 0) ≤ 1 := by
    split_ifs with hR
    · exact (div_le_one hR).mpr hDR
    · norm_num
  have hone : pyRoundTo 3 (1 : ℝ) = 1 := by
    have h := pyRoundTo_intCast (α := ℝ) 3 1
    simpa using h
  refine ⟨pyRoundTo_mono 2 hDR, pyRoundTo_nonneg 3 hratio0, ?_,
    pyRoundTo_nonneg 2 (by linarith), pyRoundTo_nonneg 1 ?_⟩
  · calc pyRoundTo 3 (if R > 0 then D / R else 0) ≤ pyRoundTo 3 (1 : ℝ) :=
        pyRoundTo_mono 3 hratio1
    _ = 1 := hone
  · split_ifs with hD
    · have : 0 ≤ (R - D) / D := div_nonneg (by linarith) hD.le
      linarith
    · exact le_refl 0

/-- C10.  The route distance (sum of consecutive haversine segments through
the waypoints) is at least the direct haversine distance, so the efficiency
ratio lies in `[0, 1]` and the detour distance and detour percentage are
never negative — also after the result's rounding. -/
theorem C10_route_efficiency_bounds (start_location end_location : ℝ × ℝ)
    (waypoints : List (ℝ × ℝ)) :
    calculate_distance start_location.1 start_location.2
        end_location.1 end_location.2 ≤
      routeDistance start_location waypoints end_location ∧
    (calculate_route_efficiency start_location end_location
        waypoints).direct_distance_km ≤
      (calculate_route_efficiency start_location end_location
        waypoints).route_distance_km ∧
    0 ≤ (calculate_route_efficiency start_location end_location
        waypoints).efficiency_ratio ∧
    (calculate_route_efficiency start_location end_location
        waypoints).efficiency_ratio ≤ 1 ∧
    0 ≤ (calculate_route_efficiency start_location end_location
        waypoints).detour_distance_km ∧
    0 ≤ (calculate_route_efficiency start_location end_location
        waypoints).detour_percentage := by
  refine ⟨routeDistance_ge _ _ _, ?_⟩
  cases waypoints with
  | nil =>
    simp only [calculate_route_efficiency]
    have h := route_bounds_core
      (calculate_distance start_location.1 start_location.2
        end_location.1 end_location.2)
      (calculate_distance start_location.1 start_location.2
        end_location.1 end_location.2)
      (calculate_distance_nonneg _ _ _ _) (le_refl _)
    exact ⟨h.1, h.2.1, h.2.2.1, h.2.2.2.1, h.2.2.2.2⟩
  | cons w ws =>
    simp only [calculate_route_efficiency]
    have h := route_bounds_core
      (calculate_distance start_location.1 start_location.2
        end_location.1 end_location.2)
      (routeDistance start_location (w :: ws) end_location)
      (calculate_distance_nonneg _ _ _ _) (routeDistance_ge _ _ _)
    exact ⟨h.1, h.2.1, h.2.2.1, h.2.2.2.1, h.2.2.2.2⟩

/-! ## Claim C6: greedy two-sample clustering -/

/-- C6.  Two samples within the 100 m default radius form one cluster,
seeded at the first sample, holding both samples (size 2 ≥ 2); two samples
farther apart than 100 m never cluster — each seeds a size-1 cluster that
the `≥ 2` filter discards, so no cluster is returned. -/
theorem C6_two_sample_clustering (p q : ℝ × ℝ) :
    (calculate_distance p.1 p.2 q.1 q.2 * 1000 ≤ 100 →
      _create_location_clusters [p, q] =
        [⟨p.1, p.2, 100, [p, q]⟩]) ∧
    (100 < calculate_distance p.1 p.2 q.1 q.2 * 1000 →
      _create_location_clusters [p, q] = []) := by
  have hself : calculate_distance p.1 p.2 p.1 p.2 * 1000 ≤ 100 := by
    rw [calculate_distance_self]
    norm_num
  have hselfq : calculate_distance q.1 q.2 q.1 q.2 * 1000 ≤ 100 := by
    rw [calculate_distance_self]
    norm_num
  have henum : ([p, q] : List (ℝ × ℝ)).enum = [(0, p), (1, q)] := rfl
  constructor
  · intro hle
    have hqp : calculate_distance q.1 q.2 p.1 p.2 * 1000 ≤ 100 := by
      rw [calculate_distance_symm q.1 q.2 p.1 p.2]
      exact hle
    simp only [_create_location_clusters, henum, clusterOuterLoop, clusterInnerLoop,
      add_location, hself, hqp, if_true, Finset.not_mem_empty, Finset.mem_insert,
      Finset.mem_singleton, List.nil_append, List.singleton_append, List.length_cons,
      List.length_nil]
    norm_num
  · intro hgt
    have hqp : ¬(calculate_distance q.1 q.2 p.1 p.2 * 1000 ≤ 100) := by
      rw [calculate_distance_symm q.1 q.2 p.1 p.2]
      exact not_le.mpr hgt
    have hpq : ¬(calculate_distance p.1 p.2 q.1 q.2 * 1000 ≤ 100) :=
      not_le.mpr hgt
    simp only [_create_location_clusters, henum, clusterOuterLoop, clusterInnerLoop,
      add_location, hself, hselfq, hqp, hpq, if_true, if_false, Finset.not_mem_empty,
      Finset.mem_insert, Finset.mem_singleton, List.nil_append, List.singleton_append,
      List.length_cons, List.length_nil]
    norm_num

/-- C6 witness: the theorem applied at two coincident samples (distance `0 ≤
100` m — one cluster of the two samples) and at `(0,0)` versus `(1,0)` (one
degree of latitude ≈ 111 km > 100 m — no cluster). -/
theorem C6_two_sample_clustering_witness :
    _create_location_clusters [((0 : ℝ), (0 : ℝ)), (0, 0)] =
      [⟨0, 0, 100, [(0, 0), (0, 0)]⟩] ∧
    _create_location_clusters [((0 : ℝ), (0 : ℝ)), (1, 0)] = [] := by
  have hzero : calculate_distance 0 0 0 0 * 1000 ≤ 100 := by
    rw [calculate_distance_self]
    norm_num
  have hfar : 100 < calculate_distance 0 0 1 0 * 1000 := by
    have harc : calculate_distance 0 0 1 0 = 6371 * (2 * Real.arcsin
        (Real.sqrt (Real.sin (radians 1 / 2) ^ 2))) := by
      simp [calculate_distance, radians]
    have hpos : (0 : ℝ) ≤ radians 1 / 2 := by
      rw [radians]
      positivity
    have hlt : radians 1 / 2 ≤ π / 2 := by
      rw [radians]
      nlinarith [Real.pi_pos]
    have hsqrt : Real.sqrt (Real.sin (radians 1 / 2) ^ 2) =
        Real.sin (radians 1 / 2) := by
      rw [Real.sqrt_sq_eq_abs, abs_of_nonneg]
      exact Real.sin_nonneg_of_nonneg_of_le_pi hpos
        (le_trans hlt (by linarith [Real.pi_pos]))
    have harcsin : Real.arcsin (Real.sin (radians 1 / 2)) = radians 1 / 2 :=
      Real.arcsin_sin (by linarith [Real.pi_pos]) hlt
    rw [harc, hsqrt, harcsin, radians]
    nlinarith [Real.pi_gt_three]
  exact ⟨(C6_two_sample_clustering ((0 : ℝ), (0 : ℝ)) ((0 : ℝ), (0 : ℝ))).1 hzero,
    (C6_two_sample_clustering ((0 : ℝ), (0 : ℝ)) ((1 : ℝ), (0 : ℝ))).2 hfar⟩

/-! ## Claim C4: nearest-landmark resolution -/

theorem landmarks_bounds : ∀ l ∈ OAU_LANDMARKS,
    (7 : ℚ) < l.lat ∧ l.lat < 8 ∧ (4 : ℚ) < l.lng ∧ l.lng < 5 := by
  intro l hl
  fin_cases hl <;> norm_num

set_option maxHeartbeats 4000000 in
theorem landmarks_pairwise_ne : OAU_LANDMARKS.Pairwise
    (fun a b => ¬(a.lat = b.lat ∧ a.lng = b.lng)) := by
  simp only [OAU_LANDMARKS]
  repeat' constructor
  all_goals intro x hx
  all_goals fin_cases hx <;> norm_num

/-- The haversine distance between two distinct points is strictly positive
when the latitudes are strictly inside `(-90, 90)` and the coordinate
differences stay below one full turn. -/
theorem calculate_distance_pos {lat1 lon1 lat2 lon2 : ℝ}
    (h1 : |lat1| < 90) (h2 : |lat2| < 90)
    (hdla : |lat1 - lat2| < 360) (hdlo : |lon1 - lon2| < 360)
    (hne : lat1 ≠ lat2 ∨ lon1 ≠ lon2) :
    0 < calculate_distance lat1 lon1 lat2 lon2 := by
  have hπ := Real.pi_pos
  obtain ⟨h1a, h1b⟩ := abs_lt.mp h1
  obtain ⟨h2a, h2b⟩ := abs_lt.mp h2
  obtain ⟨hdla1, hdla2⟩ := abs_lt.mp hdla
  obtain ⟨hdlo1, hdlo2⟩ := abs_lt.mp hdlo
  have hc1 : 0 < Real.cos (radians lat1) := by
    apply Real.cos_pos_of_mem_Ioo
    constructor
    · rw [radians]
      nlinarith
    · rw [radians]
      nlinarith
  have hc2 : 0 < Real.cos (radians lat2) := by
    apply Real.cos_pos_of_mem_Ioo
    constructor
    · rw [radians]
      nlinarith
    · rw [radians]
      nlinarith
  have hlat_half : (radians lat2 - radians lat1) / 2 = (lat2 - lat1) * π / 360 := by
    rw [radians, radians]
    ring
  have hlon_half : (radians lon2 - radians lon1) / 2 = (lon2 - lon1) * π / 360 := by
    rw [radians, radians]
    ring
  have ha : 0 < Real.sin ((radians lat2 - radians lat1) / 2) ^ 2 +
      Real.cos (radians lat1) * Real.cos (radians lat2) *
        Real.sin ((radians lon2 - radians lon1) / 2) ^ 2 := by
    rcases hne with hne | hne
    · have hx0 : (lat2 - lat1) * π / 360 ≠ 0 := by
        intro h0
        apply hne
        have : lat2 - lat1 = 0 := by
          rcases mul_eq_zero.mp
              ((div_eq_zero_iff.mp h0).resolve_right (by norm_num)) with h | h
          · exact h
          · exact absurd h hπ.ne'
        linarith
      have hsin : Real.sin ((lat2 - lat1) * π / 360) ≠ 0 := by
        rw [Ne, Real.sin_eq_zero_iff_of_lt_of_lt (by nlinarith) (by nlinarith)]
        exact hx0
      have hterm : 0 < Real.sin ((radians lat2 - radians lat1) / 2) ^ 2 := by
        rw [hlat_half]
        exact sq_pos_of_ne_zero hsin
      have hterm2 : 0 ≤ Real.cos (radians lat1) * Real.cos (radians lat2) *
          Real.sin ((radians lon2 - radians lon1) / 2) ^ 2 :=
        mul_nonneg (mul_nonneg hc1.le hc2.le) (sq_nonneg _)
      linarith
    · have hx0 : (lon2 - lon1) * π / 360 ≠ 0 := by
        intro h0
        apply hne
        have : lon2 - lon1 = 0 := by
          rcases mul_eq_zero.mp
              ((div_eq_zero_iff.mp h0).resolve_right (by norm_num)) with h | h
          · exact h
          · exact absurd h hπ.ne'
        linarith
      have hsin : Real.sin ((lon2 - lon1) * π / 360) ≠ 0 := by
        rw [Ne, Real.sin_eq_zero_iff_of_lt_of_lt (by nlinarith) (by nlinarith)]
        exact hx0
      have hterm : 0 < Real.cos (radians lat1) * Real.cos (radians lat2) *
          Real.sin ((radians lon2 - radians lon1) / 2) ^ 2 := by
        rw [hlon_half]
        exact mul_pos (mul_pos hc1 hc2)
          (sq_pos_of_ne_zero hsin)
      have hterm2 : 0 ≤ Real.sin ((radians lat2 - radians lat1) / 2) ^ 2 :=
        sq_nonneg _
      linarith
  simp only [calculate_distance]
  have hs : 0 < Real.sqrt (Real.sin ((radians lat2 - radians lat1) / 2) ^ 2 +
      Real.cos (radians lat1) * Real.cos (radians lat2) *
        Real.sin ((radians lon2 - radians lon1) / 2) ^ 2) := Real.sqrt_pos.mpr ha
  have harc := Real.arcsin_pos.mpr hs
  nlinarith [harc]

theorem nearestScan_append (latitude longitude max_distance : ℝ)
    (L1 L2 : List Landmark) (st : Option ℝ × String × Option NearestInfo) :
    nearestScan latitude longitude max_distance (L1 ++ L2) st =
      nearestScan latitude longitude max_distance L2
        (nearestScan latitude longitude max_distance L1 st) := by
  induction L1 generalizing st with
  | nil => rfl
  | cons l rest ih =>
    obtain ⟨m, nm, i⟩ := st
    rw [List.cons_append]
    rcases m with _ | v <;> simp only [nearestScan] <;> split_ifs <;> exact ih _

theorem nearestScan_far (latitude longitude max_distance : ℝ) (L : List Landmark)
    (nm : String)
    (hfar : ∀ l ∈ L, max_distance <
      calculate_distance latitude longitude (l.lat : ℝ) (l.lng : ℝ)) :
    nearestScan latitude longitude max_distance L (none, nm, none) =
      (none, nm, none) := by
  induction L with
  | nil => rfl
  | cons l rest ih =>
    simp only [nearestScan]
    rw [if_neg (not_le.mpr (hfar l (List.mem_cons_self l rest)))]
    exact ih fun x hx => hfar x (List.mem_cons_of_mem _ hx)

theorem nearestScan_after_zero (latitude longitude max_distance : ℝ)
    (L : List Landmark) (nm : String) (i : Option NearestInfo) :
    nearestScan latitude longitude max_distance L (some 0, nm, i) =
      (some 0, nm, i) := by
  induction L with
  | nil => rfl
  | cons l rest ih =>
    simp only [nearestScan]
    rw [if_neg]
    · exact ih
    · intro hc
      exact absurd hc.1 (not_lt.mpr (calculate_distance_nonneg _ _ _ _))

theorem nearestScan_min_pos (latitude longitude max_distance : ℝ) :
    ∀ L : List Landmark,
      (∀ l ∈ L, 0 < calculate_distance latitude longitude (l.lat : ℝ) (l.lng : ℝ)) →
      ∀ st : Option ℝ × String × Option NearestInfo,
        (st.1 = none ∨ ∃ v, st.1 = some v ∧ 0 < v) →
        ((nearestScan latitude longitude max_distance L st).1 = none ∨
          ∃ v, (nearestScan latitude longitude max_distance L st).1 = some v ∧
            0 < v) := by
  intro L
  induction L with
  | nil => exact fun _ st h => h
  | cons l rest ih =>
    intro hpos st h
    obtain ⟨m, nm, i⟩ := st
    have hl := hpos l (List.mem_cons_self l rest)
    have htail : ∀ x ∈ rest,
        0 < calculate_distance latitude longitude (x.lat : ℝ) (x.lng : ℝ) :=
      fun x hx => hpos x (List.mem_cons_of_mem _ hx)
    rcases m with _ | v
    · simp only [nearestScan]
      split_ifs with hc
      · exact ih htail _ (Or.inr ⟨_, rfl, hl⟩)
      · exact ih htail _ (Or.inl rfl)
    · simp only [nearestScan]
      split_ifs with hc
      · exact ih htail _ (Or.inr ⟨_, rfl, hl⟩)
      · exact ih htail _ h

theorem nearestScan_min_decreasing (latitude longitude max_distance : ℝ) :
    ∀ (L : List Landmark) (v : ℝ) (nm : String) (i : Option NearestInfo),
      ∃ m, (nearestScan latitude longitude max_distance L (some v, nm, i)).1 =
          some m ∧ m ≤ v := by
  intro L
  induction L with
  | nil => exact fun v nm i => ⟨v, rfl, le_refl v⟩
  | cons l rest ih =>
    intro v nm i
    simp only [nearestScan]
    split_ifs with hc
    · obtain ⟨m, hm, hle⟩ := ih (calculate_distance latitude longitude
        (l.lat : ℝ) (l.lng : ℝ)) l.name (some ⟨l.name, l.type,
          pyRoundTo 0 (calculate_distance latitude longitude
            (l.lat : ℝ) (l.lng : ℝ) * 1000), l.description⟩)
      exact ⟨m, hm, hle.trans hc.1.le⟩
    · exact ih v nm i

theorem nearestScan_min_le (latitude longitude max_distance : ℝ) (l : Landmark)
    (hle : calculate_distance latitude longitude (l.lat : ℝ) (l.lng : ℝ) ≤
      max_distance) :
    ∀ L : List Landmark, l ∈ L →
      ∀ (m0 : Option ℝ) (nm0 : String) (i0 : Option NearestInfo),
        ∃ m, (nearestScan latitude longitude max_distance L (m0, nm0, i0)).1 =
            some m ∧
          m ≤ calculate_distance latitude longitude (l.lat : ℝ) (l.lng : ℝ) := by
  intro L
  induction L with
  | nil => exact fun hl => absurd hl (List.not_mem_nil _)
  | cons x rest ih =>
    intro hl m0 nm0 i0
    rcases List.mem_cons.mp hl with rfl | hmem
    · rcases m0 with _ | v
      · simp only [nearestScan]
        rw [if_pos hle]
        exact nearestScan_min_decreasing latitude longitude max_distance rest _ _ _
      · simp only [nearestScan]
        split_ifs with hc
        · exact nearestScan_min_decreasing latitude longitude max_distance rest _ _ _
        · have hv : v ≤ calculate_distance latitude longitude (l.lat : ℝ)
              (l.lng : ℝ) := by
            rcases not_and_or.mp hc with h | h
            · exact not_lt.mp h
            · exact absurd hle h
          obtain ⟨m, hm, hmle⟩ :=
            nearestScan_min_decreasing latitude longitude max_distance rest v nm0 i0
          exact ⟨m, hm, hmle.trans hv⟩
    · rcases m0 with _ | v <;> simp only [nearestScan] <;> split_ifs <;>
        exact ih hmem _ _ _

theorem get_nearest_landmark_at (l : Landmark) (hl : l ∈ OAU_LANDMARKS) :
    get_nearest_landmark (l.lat : ℝ) (l.lng : ℝ) 1 = "At " ++ l.name := by
  obtain ⟨L1, L2, hsplit⟩ := List.append_of_mem hl
  have hpair := landmarks_pairwise_ne
  rw [hsplit] at hpair
  have hL1 := (List.pairwise_append.mp hpair).2.2
  have hpos : ∀ x ∈ L1,
      0 < calculate_distance (l.lat : ℝ) (l.lng : ℝ) (x.lat : ℝ) (x.lng : ℝ) := by
    intro x hx
    have hxmem : x ∈ OAU_LANDMARKS := by
      rw [hsplit]
      exact List.mem_append_left _ hx
    have hne := hL1 x hx l (List.mem_cons_self _ _)
    obtain ⟨hx1, hx2, hx3, hx4⟩ := landmarks_bounds x hxmem
    obtain ⟨hl1, hl2, hl3, hl4⟩ := landmarks_bounds l hl
    have hx1r : (7 : ℝ) < (x.lat : ℝ) := by exact_mod_cast hx1
    have hx2r : ((x.lat : ℝ)) < 8 := by exact_mod_cast hx2
    have hx3r : (4 : ℝ) < (x.lng : ℝ) := by exact_mod_cast hx3
    have hx4r : ((x.lng : ℝ)) < 5 := by exact_mod_cast hx4
    have hl1r : (7 : ℝ) < (l.lat : ℝ) := by exact_mod_cast hl1
    have hl2r : ((l.lat : ℝ)) < 8 := by exact_mod_cast hl2
    have hl3r : (4 : ℝ) < (l.lng : ℝ) := by exact_mod_cast hl3
    have hl4r : ((l.lng : ℝ)) < 5 := by exact_mod_cast hl4
    apply calculate_distance_pos
    · rw [abs_lt]
      constructor <;> linarith
    · rw [abs_lt]
      constructor <;> linarith
    · rw [abs_lt]
      constructor <;> linarith
    · rw [abs_lt]
      constructor <;> linarith
    · rcases not_and_or.mp hne with h | h
      · exact Or.inl fun he => h (by exact_mod_cast he.symm)
      · exact Or.inr fun he => h (by exact_mod_cast he.symm)
  have hd0 : calculate_distance (l.lat : ℝ) (l.lng : ℝ) (l.lat : ℝ) (l.lng : ℝ) = 0 :=
    calculate_distance_self _ _
  have hst := nearestScan_min_pos (l.lat : ℝ) (l.lng : ℝ) 1 L1 hpos
    (none, "Unknown Location", none) (Or.inl rfl)
  rcases hsc : nearestScan (l.lat : ℝ) (l.lng : ℝ) 1 L1
    (none, "Unknown Location", none) with ⟨m1, nm1, i1⟩
  rw [hsc] at hst
  simp only [get_nearest_landmark]
  rw [hsplit, nearestScan_append, hsc]
  rcases hst with hm1 | ⟨v, hv, hvpos⟩
  · simp only at hm1
    rw [hm1]
    simp only [nearestScan, hd0]
    rw [if_pos (by norm_num)]
    have : (0 : ℝ) * 1000 = 0 := by norm_num
    rw [this, pyRoundTo_zero, nearestScan_after_zero]
    exact if_pos (by norm_num)
  · simp only at hv
    rw [hv]
    simp only [nearestScan, hd0]
    rw [if_pos ⟨hvpos, by norm_num⟩]
    have : (0 : ℝ) * 1000 = 0 := by norm_num
    rw [this, pyRoundTo_zero, nearestScan_after_zero]
    exact if_pos (by norm_num)

/-- C4.  `nearestLandmark` keeps the minimum-distance catalog landmark
within `maxDistanceKm` (first conjunct: with every landmark farther than
`max_distance` the scan keeps nothing and the label is
`"On Campus (Location Unknown)"`; second conjunct: whenever some landmark is
within range, the scan's kept minimum is a lower bound on every in-range
landmark's distance); and evaluated exactly at a catalog landmark's
coordinates it returns the `"At {name}"` form for that landmark. -/
theorem C4_nearest_landmark_resolution :
    (∀ latitude longitude max_distance : ℝ,
      (∀ l ∈ OAU_LANDMARKS, max_distance <
        calculate_distance latitude longitude (l.lat : ℝ) (l.lng : ℝ)) →
      get_nearest_landmark latitude longitude max_distance =
        "On Campus (Location Unknown)") ∧
    (∀ latitude longitude max_distance : ℝ, ∀ l ∈ OAU_LANDMARKS,
      calculate_distance latitude longitude (l.lat : ℝ) (l.lng : ℝ) ≤
          max_distance →
      ∃ m, (nearestScan latitude longitude max_distance OAU_LANDMARKS
          (none, "Unknown Location", none)).1 = some m ∧
        m ≤ calculate_distance latitude longitude (l.lat : ℝ) (l.lng : ℝ)) ∧
    (∀ l ∈ OAU_LANDMARKS,
      get_nearest_landmark (l.lat : ℝ) (l.lng : ℝ) 1 = "At " ++ l.name) := by
  refine ⟨fun latitude longitude max_distance hfar => ?_,
    fun latitude longitude max_distance l hl hle =>
      nearestScan_min_le latitude longitude max_distance l hle OAU_LANDMARKS hl
        none "Unknown Location" none,
    fun l hl => get_nearest_landmark_at l hl⟩
  simp only [get_nearest_landmark]
  rw [nearestScan_far latitude longitude max_distance OAU_LANDMARKS
    "Unknown Location" hfar]

/-- C4 witness: evaluated at the Main Gate's own catalog coordinates, the
label is `"At Main Gate"`. -/
theorem C4_nearest_landmark_resolution_witness :
    get_nearest_landmark ((7.5227 : ℚ) : ℝ) ((4.5198 : ℚ) : ℝ) 1 = "At Main Gate" :=
  C4_nearest_landmark_resolution.2.2
    ⟨"main_gate", 7.5227, 4.5198, "Main Gate", "entrance", "Primary campus entrance"⟩
    (by simp [OAU_LANDMARKS])

end OAUBike
